import Mathlib

/-!
Verification of the lead-qualification engine of the pi-lead-qualifier
repository (src/src/qualifier.py, src/src/chatgpt_scorer.py,
src/src/claude_analyzer.py, src/src/config.py) against its
natural-language specification.

Shallow embedding conventions:
* Python str is Lean String; substring tests (Python `x in y`) are
  List.isInfixOf on the underlying character lists.
* Python datetime values are modeled at day precision by their proleptic
  Gregorian day ordinal (date.toordinal): day 1 is 0001-01-01.  Adding a
  timedelta of n days is ordinal addition; the .year / .month fields are
  recovered by dateOfOrdinal, a closed-form civil-from-days conversion for
  the proleptic Gregorian calendar.  The wall-clock portion of
  datetime.now() used only for display is passed as an opaque string.
* Python float case-value arithmetic is modeled with exact rationals
  (IEEE rounding abstracted; no claim touches the value).
* External effects (OpenAI / Anthropic API calls, json.loads) are modeled
  by parameters carrying their outcome: an Except for call success or
  failure, and an Option for the parse result of the returned text.
-/

/-- Whitespace, as Python str.strip and the regex class `\s` treat it
(ASCII part). -/
def isPySpace (c : Char) : Bool :=
  c == ' ' || c == '\t' || c == '\n' || c == '\r' || c == '\x0B' || c == '\x0C'

/-- Lowercasing, as Python str.lower on ASCII text (Unicode special
casing abstracted; every input used concretely here is ASCII). -/
def pyLower (s : String) : String := String.mk (s.data.map Char.toLower)

/-- Uppercasing, as Python str.upper on ASCII text. -/
def pyUpper (s : String) : String := String.mk (s.data.map Char.toUpper)

/-- Python str.strip: remove leading and trailing whitespace. -/
def pyStrip (s : String) : String :=
  String.mk (((s.data.dropWhile isPySpace).reverse.dropWhile isPySpace).reverse)

/-- Python sep.join(xs). -/
def pyJoin (sep : String) (xs : List String) : String :=
  String.mk (List.intercalate sep.data (xs.map String.data))

/-- Python s[:n] character slicing. -/
def pyTake (s : String) (n : Nat) : String := String.mk (s.data.take n)

/-- List infix test: the needle is a prefix of some suffix of the hay. -/
def listIsInfixOf (needle : List Char) : List Char → Bool
  | [] => needle.isEmpty
  | c :: rest => needle.isPrefixOf (c :: rest) || listIsInfixOf needle rest

/-- Python substring containment `needle in hay`. -/
def containsSub (needle hay : String) : Bool :=
  listIsInfixOf needle.data hay.data

/-- Python truthiness of an Optional[str]: None and the empty string are
falsy. -/
def pyFalsyStr (o : Option String) : Bool :=
  match o with
  | none => true
  | some s => s == ""

/-- Python `x or ""` on an Optional[str]. -/
def pyOrEmpty (o : Option String) : String :=
  match o with
  | none => ""
  | some s => s

/-- Python str() rendering of an Optional[str] inside an f-string. -/
def pyStrOpt (o : Option String) : String :=
  match o with
  | none => "None"
  | some s => s

/-- Python str.title: a cased character preceded by a non-cased character
is uppercased, any other cased character is lowercased (ASCII). -/
def pyTitleAux : List Char → Bool → List Char
  | [], _ => []
  | c :: rest, prevAlpha =>
    (if c.isAlpha then (if prevAlpha then c.toLower else c.toUpper) else c)
      :: pyTitleAux rest c.isAlpha

def pyTitle (s : String) : String := String.mk (pyTitleAux s.data false)

/-! ## Proleptic Gregorian calendar (civil from days) -/

/-- Convert a proleptic Gregorian day ordinal (day 1 = 0001-01-01, as
Python date.toordinal) to (year, month, day), by the standard era-based
civil-from-days computation.  Validated against Python
datetime.date.fromordinal on a large sample of ordinals. -/
def dateOfOrdinal (o : Nat) : Nat × Nat × Nat :=
  let z := o + 305
  let era := z / 146097
  let doe := z % 146097
  let yoe := (doe - doe / 1460 + doe / 36524 - doe / 146096) / 365
  let doy := doe - (365 * yoe + yoe / 4 - yoe / 100)
  let mp := (5 * doy + 2) / 153
  let d := doy - (153 * mp + 2) / 5 + 1
  let m := if mp < 10 then mp + 3 else mp - 9
  let y := yoe + era * 400 + (if m ≤ 2 then 1 else 0)
  (y, m, d)

/-- Year field of an ordinal date. -/
def yearOfOrdinal (o : Nat) : Nat := (dateOfOrdinal o).1

/-- Month field of an ordinal date. -/
def monthOfOrdinal (o : Nat) : Nat := (dateOfOrdinal o).2.1

/-! ## Configuration (src/src/config.py) -/

/-- QualificationConfig from src/src/config.py, with the same defaults.
Numeric fields are Int (Python int); sol_years is Nat, used only as a
day-count multiplier. -/
structure QualificationConfig where
  medical_treatment_points : Int := 3
  clear_liability_points : Int := 3
  identified_insurance_points : Int := 2
  sol_buffer_points : Int := 1
  serious_injury_points : Int := 2
  tri_county_bonus : Int := 5
  tier1_threshold : Int := 11
  tier2_threshold : Int := 7
  sol_years : Nat := 3
  min_sol_months_remaining : Int := 18
  state : String := "SC"
  preferred_counties : List String := []
  accepted_counties : List String := []
  disputed_liability_keywords : List String :=
    ["disputed", "my client may be at fault", "unclear", "comparative",
     "contributory", "both parties", "shared fault", "partial fault"]
  insufficient_treatment_keywords : List String :=
    ["none yet", "no treatment", "hasn\x27t seen doctor", "refused treatment",
     "self-treating", "home remedies only"]
  serious_injury_keywords : List String :=
    ["fracture", "broken", "surgery", "surgical", "operation", "permanent",
     "disability", "amputation", "traumatic brain", "tbi", "spinal cord",
     "paralysis", "herniated", "torn", "rupture", "internal bleeding"]
  clear_liability_keywords : List String :=
    ["rear-end", "rear end", "rearend", "ran red light", "ran stop sign",
     "ran the light", "ran the sign", "speeding", "dui", "dwi", "drunk",
     "intoxicated", "bac", "failed sobriety", "citation issued",
     "ticket issued", "at fault", "100% fault", "admitted fault"]
  valid_treatment_keywords : List String :=
    ["emergency room", "er visit", "emergency department", "ed visit",
     "hospital", "orthopedic", "orthopaedic", "surgeon", "surgery",
     "operation", "physical therapy", "pt", "chiropractor", "mri",
     "ct scan", "x-ray", "xray", "specialist", "neurologist", "pain management"]
  deriving Repr, DecidableEq

/-- ScoringThresholds from src/src/config.py (two-tier AI thresholds). -/
structure ScoringThresholds where
  fast_track : Int := 75
  claude_review : Int := 50
  need_info : Int := 25
  deriving Repr, DecidableEq

/-! ## Data model (src/src/qualifier.py, src/src/airtable_client.py) -/

/-- QualificationTier enum. -/
inductive QualificationTier where
  | TIER_1_AUTO_ACCEPT
  | TIER_2_REVIEW
  | TIER_3_AUTO_DECLINE
  deriving Repr, DecidableEq

/-- SafetyFlag dataclass. -/
structure SafetyFlag where
  flag_type : String
  description : String
  severity : String
  deriving Repr, DecidableEq

/-- Lead dataclass from src/src/airtable_client.py.  Datetime fields are
day ordinals (see header). -/
structure Lead where
  record_id : String
  name : String
  phone : Option String := none
  email : Option String := none
  capture_date : Option Nat := none
  days_since_capture : Option Int := none
  lead_source : Option String := none
  lead_summary : Option String := none
  sentiment_analysis : Option String := none
  status : String := ""
  created_time : Option Nat := none
  accident_date : Option Nat := none
  accident_location : Option String := none
  injury_description : Option String := none
  medical_treatment : Option String := none
  insurance_carrier : Option String := none
  liability_notes : Option String := none
  deriving Repr, DecidableEq

/-- QualificationResult dataclass. -/
structure QualificationResult where
  tier : QualificationTier
  total_score : Int
  medical_treatment_met : Bool
  medical_treatment_points : Int
  liability_met : Bool
  liability_points : Int
  insurance_identified : Bool
  insurance_points : Int
  sol_adequate : Bool
  sol_points : Int
  serious_injury : Bool
  serious_injury_points : Int
  geographic_bonus : Int
  county : Option String
  is_tri_county : Bool
  is_in_sc : Bool
  months_until_sol : Option Int
  estimated_case_value : Option Rat
  injury_type : String
  qualification_notes : String
  strengths : List String := []
  concerns : List String := []
  missing_info : List String := []
  recommended_questions : List String := []
  safety_flags : List SafetyFlag := []
  ai_analysis : Option String := none
  deriving Repr, DecidableEq

/-! ## Geography resolver (LeadQualifier._analyze_geography) -/

/-- Word character for the regex word boundary, as in `\b` over ASCII. -/
def isWordChar (c : Char) : Bool := c.isAlphanum || c == '_'

/-- Character class [a-z]. -/
def isLowerAlpha (c : Char) : Bool := 'a' ≤ c && c ≤ 'z'

/-- After the captured letters, the remainder of the county pattern:
zero or more whitespace characters, the literal "county", then a word
boundary.  Because "county" starts with a non-space character, the
greedy whitespace match is forced to consume the full space run. -/
def countyTailMatch (l : List Char) : Bool :=
  let r := l.dropWhile isPySpace
  "county".data.isPrefixOf r &&
    (match r.drop 6 with
     | [] => true
     | c :: _ => !isWordChar c)

/-- Greedy-with-backtracking capture length for the `[a-z]+` group:
try the longest letter run first, shrinking until the tail matches. -/
def countyCaptureLen (l : List Char) : Nat → Option Nat
  | 0 => none
  | n + 1 =>
    if countyTailMatch (l.drop (n + 1)) then some (n + 1)
    else countyCaptureLen l n

/-- Leftmost search for the pattern `\b([a-z]+)\s*county\b`, returning
the captured group; prevWord records whether the previous character was
a word character (for the leading word boundary). -/
def searchCountyAux : List Char → Bool → Option (List Char)
  | [], _ => none
  | c :: rest, prevWord =>
    if !prevWord && isLowerAlpha c then
      let run := (c :: rest).takeWhile isLowerAlpha
      match countyCaptureLen (c :: rest) run.length with
      | some len => some ((c :: rest).take len)
      | none => searchCountyAux rest (isWordChar c)
    else
      searchCountyAux rest (isWordChar c)

/-- re.search of the county pattern over a string, returning group(1). -/
def searchCounty (s : String) : Option String :=
  (searchCountyAux s.data false).map (fun cs => String.mk cs)

/-- The static city-to-county alias table, in source (insertion) order. -/
def city_to_county : List (String × String) :=
  [("charleston", "charleston"),
   ("north charleston", "charleston"),
   ("mount pleasant", "charleston"),
   ("mt pleasant", "charleston"),
   ("summerville", "dorchester"),
   ("goose creek", "berkeley"),
   ("moncks corner", "berkeley"),
   ("columbia", "richland"),
   ("greenville", "greenville"),
   ("spartanburg", "spartanburg"),
   ("myrtle beach", "horry"),
   ("florence", "florence"),
   ("rock hill", "york"),
   ("anderson", "anderson"),
   ("hilton head", "beaufort")]

/-- State-marker test used by the jurisdiction check. -/
def scMarkerPresent (location_lower : String) : Bool :=
  [", sc", "south carolina", ", s.c."].any
    (fun m => containsSub m location_lower)

/-- LeadQualifier._analyze_geography: returns
(county?, is_tri_county, is_in_sc). -/
def LeadQualifier.analyze_geography (cfg : QualificationConfig)
    (location : Option String) : Option String × Bool × Bool :=
  match location with
  | none => (none, false, false)
  | some loc =>
    if loc == "" then (none, false, false)
    else
      let location_lower := pyLower loc
      let county :=
        match searchCounty location_lower with
        | some c => some c
        | none =>
          match city_to_county.find? (fun p => containsSub p.1 location_lower) with
          | some p => some p.2
          | none => none
      let is_in_sc :=
        match county with
        | some c =>
          if cfg.accepted_counties.contains c then true
          else scMarkerPresent location_lower
        | none => scMarkerPresent location_lower
      let is_tri_county :=
        match county with
        | some c => cfg.preferred_counties.contains c
        | none => false
      (county, is_tri_county, is_in_sc)

/-! ## Statute-of-limitations calculator
(LeadQualifier._calculate_sol_remaining) -/

/-- LeadQualifier._calculate_sol_remaining: months remaining until the
statute of limitations expires, given the accident date and the current
date (datetime.now), both as day ordinals. -/
def LeadQualifier.calculate_sol_remaining (cfg : QualificationConfig)
    (accident_date : Option Nat) (today : Nat) : Option Int :=
  match accident_date with
  | none => none
  | some a =>
    let sol_expiration := a + cfg.sol_years * 365
    if sol_expiration ≤ today then some 0
    else
      let months : Int :=
        ((yearOfOrdinal sol_expiration : Int) - (yearOfOrdinal today : Int)) * 12 +
          ((monthOfOrdinal sol_expiration : Int) - (monthOfOrdinal today : Int))
      some (max 0 months)

/-! ## SOL adequacy scoring (LeadQualifier._analyze_sol) -/

/-- LeadQualifier._analyze_sol: (sol_adequate, sol_points). -/
def LeadQualifier.analyze_sol (cfg : QualificationConfig)
    (months_remaining : Option Int) : Bool × Int :=
  match months_remaining with
  | none => (false, 0)
  | some m =>
    if m < cfg.min_sol_months_remaining then (false, 0)
    else if m > 24 then (true, cfg.sol_buffer_points)
    else (true, 0)

/-! ## Tier decision (LeadQualifier._determine_tier) -/

/-- LeadQualifier._determine_tier. -/
def LeadQualifier.determine_tier (cfg : QualificationConfig) (score : Int)
    (safety_flags : List SafetyFlag) (is_in_sc sol_adequate : Bool) :
    QualificationTier :=
  if !is_in_sc then .TIER_3_AUTO_DECLINE
  else if !sol_adequate then .TIER_3_AUTO_DECLINE
  else
    let review_flags := safety_flags.filter
      (fun f => f.severity == "block" || f.severity == "review")
    if !review_flags.isEmpty && score ≥ cfg.tier1_threshold then
      .TIER_2_REVIEW
    else if score ≥ cfg.tier1_threshold then .TIER_1_AUTO_ACCEPT
    else if score ≥ cfg.tier2_threshold then .TIER_2_REVIEW
    else .TIER_3_AUTO_DECLINE

/-! ## Safety rules (LeadQualifier._check_safety_rules) -/

/-- Python " ".join(filter(None, xs)) over Optional[str] values. -/
def joinPresent (xs : List (Option String)) : String :=
  pyJoin " " ((xs.filterMap id).filter (fun s => s != ""))

/-- Minor-plaintiff indicator list (inline in the source). -/
def minor_indicators : List String :=
  ["minor", "child", "age 17", "age 16", "age 15",
   "year old", "years old", "minor child", "juvenile"]

/-- Multiple-parties indicator list (inline in the source). -/
def multi_party_indicators : List String :=
  ["multiple vehicles", "multi-vehicle", "chain reaction",
   "three car", "four car", "several parties", "multiple parties"]

/-- Commercial-vehicle indicator list (inline in the source). -/
def commercial_indicators : List String :=
  ["commercial", "truck", "18-wheeler", "semi", "tractor-trailer",
   "delivery van", "box truck", "company vehicle", "fleet"]

/-- LeadQualifier._check_safety_rules. -/
def LeadQualifier.check_safety_rules (cfg : QualificationConfig)
    (lead : Lead) : List SafetyFlag :=
  let all_text := pyLower (joinPresent
    [lead.injury_description, lead.medical_treatment, lead.liability_notes])
  let disputed :=
    match cfg.disputed_liability_keywords.find?
        (fun kw => containsSub (pyLower kw) all_text) with
    | some kw =>
      [{ flag_type := "disputed_liability",
         description := "Liability may be disputed: found \x27" ++ kw ++ "\x27",
         severity := "review" }]
    | none => []
  let med_text := pyLower (pyOrEmpty lead.medical_treatment)
  let medical :=
    if med_text == "" || [("" : String), "none", "n/a"].contains (pyStrip med_text) then
      [{ flag_type := "no_medical_treatment",
         description := "No medical treatment information provided",
         severity := "review" }]
    else
      match cfg.insufficient_treatment_keywords.find?
          (fun kw => containsSub (pyLower kw) med_text) with
      | some kw =>
        [{ flag_type := "insufficient_treatment",
           description := "Medical treatment may be insufficient: \x27" ++ kw ++ "\x27",
           severity := "review" }]
      | none => []
  let minor :=
    if minor_indicators.any (fun i => containsSub i all_text) then
      [{ flag_type := "minor_plaintiff",
         description := "Plaintiff may be a minor - requires special handling",
         severity := "review" }]
    else []
  let multi :=
    if multi_party_indicators.any (fun i => containsSub i all_text) then
      [{ flag_type := "multiple_parties",
         description := "Multiple parties involved - requires review",
         severity := "review" }]
    else []
  let commercial :=
    if commercial_indicators.any (fun i => containsSub i all_text) then
      [{ flag_type := "commercial_vehicle",
         description := "Commercial vehicle involved - potential higher value case",
         severity := "review" }]
    else []
  disputed ++ medical ++ minor ++ multi ++ commercial

/-! ## Medical treatment analysis (LeadQualifier._analyze_medical_treatment) -/

/-- LeadQualifier._analyze_medical_treatment:
(treatment_met, points, detail string). -/
def LeadQualifier.analyze_medical_treatment (cfg : QualificationConfig)
    (lead : Lead) : Bool × Int × String :=
  let med_text := pyLower (pyOrEmpty lead.medical_treatment)
  let injury_text := pyLower (pyOrEmpty lead.injury_description)
  let combined := med_text ++ " " ++ injury_text
  let has_er := ["emergency room", "er visit", "emergency department",
    "ed visit", "hospital"].any (fun kw => containsSub kw combined)
  let has_ortho := ["orthopedic", "orthopaedic", "orthopedist"].any
    (fun kw => containsSub kw combined)
  let has_surgery := ["surgery", "surgical", "operation"].any
    (fun kw => containsSub kw combined)
  let has_followup := ["physical therapy", "pt", "chiropractor",
    "follow-up", "followup", "specialist"].any (fun kw => containsSub kw combined)
  let details :=
    (if has_er then ["ER visit documented"] else []) ++
    (if has_ortho then ["Orthopedic care"] else []) ++
    (if has_surgery then ["Surgical intervention"] else []) ++
    (if has_followup then ["Follow-up care documented"] else [])
  let treatment_met := (has_er && (has_ortho || has_followup)) || has_surgery
  let points := if treatment_met then cfg.medical_treatment_points else 0
  let detail_str :=
    if details.isEmpty then "No qualifying treatment documented"
    else pyJoin "; " details
  (treatment_met, points, detail_str)

/-! ## Liability analysis (LeadQualifier._analyze_liability) -/

/-- LeadQualifier._analyze_liability: (clear_liability, points, details). -/
def LeadQualifier.analyze_liability (cfg : QualificationConfig)
    (lead : Lead) : Bool × Int × String :=
  let liability_text := pyLower (pyOrEmpty lead.liability_notes)
  if pyStrip liability_text == "" then
    (false, 0, "No liability information provided")
  else
    let step1 :=
      match cfg.clear_liability_keywords.find?
          (fun kw => containsSub (pyLower kw) liability_text) with
      | some kw => (true, ["Clear liability indicator: " ++ kw])
      | none => (false, ([] : List String))
    let step2 :=
      if containsSub "rear" liability_text && containsSub "end" liability_text then
        (true,
         step1.2 ++ (if step1.2.contains "Rear-end collision" then []
                     else ["Rear-end collision (presumed liability)"]))
      else step1
    let step3 :=
      if ["dui", "dwi", "drunk", "intoxicated", "bac"].any
          (fun s => containsSub s liability_text) then
        (true, step2.2 ++ ["DUI/DWI involved"])
      else step2
    let step4 :=
      if ["citation", "ticket", "cited", "ticketed"].any
          (fun s => containsSub s liability_text) then
        (true, step3.2 ++ ["Citation issued to defendant"])
      else step3
    let clear_liability := step4.1
    let details := step4.2
    let points := if clear_liability then cfg.clear_liability_points else 0
    let detail_str :=
      if details.isEmpty then "Liability unclear or not documented"
      else pyJoin "; " details
    (clear_liability, points, detail_str)

/-! ## Insurance analysis (LeadQualifier._analyze_insurance) -/

/-- LeadQualifier._analyze_insurance: (insurance_identified, points). -/
def LeadQualifier.analyze_insurance (cfg : QualificationConfig)
    (lead : Lead) : Bool × Int :=
  let carrier := pyLower (pyStrip (pyOrEmpty lead.insurance_carrier))
  if carrier == "" ||
      [("" : String), "unknown", "n/a", "none", "tbd"].contains carrier then
    (false, 0)
  else if ["uninsured", "uninsured motorist", "um", "no insurance"].contains carrier then
    (false, 0)
  else
    (true, cfg.identified_insurance_points)

/-! ## Injury severity analysis (LeadQualifier._analyze_injury_severity) -/

/-- Injury classification table, in source order. -/
def injury_type_map : List (List String × String) :=
  [(["fracture", "broken", "break"], "Fracture injuries"),
   (["surgery", "surgical"], "Surgical case"),
   (["traumatic brain", "tbi", "concussion", "head injury"], "Head/Brain injury"),
   (["spinal", "spine", "back injury", "neck injury", "herniated"], "Spinal injuries"),
   (["torn", "rupture", "acl", "mcl", "rotator cuff"], "Torn ligament/tendon"),
   (["whiplash", "strain", "sprain"], "Whiplash/soft tissue")]

/-- LeadQualifier._analyze_injury_severity:
(is_serious, points, injury_type). -/
def LeadQualifier.analyze_injury_severity (cfg : QualificationConfig)
    (lead : Lead) : Bool × Int × String :=
  let injury_text := pyLower (pyOrEmpty lead.injury_description)
  let med_text := pyLower (pyOrEmpty lead.medical_treatment)
  let combined := injury_text ++ " " ++ med_text
  let injury_type :=
    match injury_type_map.find?
        (fun p => p.1.any (fun kw => containsSub kw combined)) with
    | some p => p.2
    | none => "Soft tissue injuries"
  let is_serious := cfg.serious_injury_keywords.any
    (fun kw => containsSub kw combined)
  let points := if is_serious then cfg.serious_injury_points else 0
  (is_serious, points, injury_type)

/-! ## Analysis lists (LeadQualifier._build_analysis_lists) -/

/-- LeadQualifier._build_analysis_lists:
(strengths, concerns, missing_info, questions). -/
def LeadQualifier.build_analysis_lists (lead : Lead)
    (medical_met liability_met insurance_met sol_adequate serious : Bool)
    (is_tri_county : Bool) (county : Option String)
    (medical_details liability_details : String) :
    List String × List String × List String × List String :=
  let strengths :=
    (if medical_met then
       ["Medical treatment threshold met: " ++ medical_details] else []) ++
    (if liability_met then
       ["Clear liability established: " ++ liability_details] else []) ++
    (if insurance_met then
       ["Insurance carrier identified: " ++ pyStrOpt lead.insurance_carrier] else []) ++
    (if sol_adequate then ["Statute of limitations adequate"] else []) ++
    (if serious then ["Serious injury documented"] else []) ++
    (if is_tri_county then
       ["Tri-county area (" ++
        (match county with
         | some c => pyTitle c
         | none => "Unknown") ++ " County)"] else [])
  let concerns :=
    (if !medical_met then ["Medical treatment may not meet threshold"] else []) ++
    (if !liability_met then ["Liability not clearly established"] else []) ++
    (if !insurance_met then ["Insurance carrier not identified or UM-only"] else []) ++
    (if !sol_adequate then ["Statute of limitations concern"] else [])
  let missing_info :=
    (if lead.accident_date.isNone then ["Accident date not provided"] else []) ++
    (if pyFalsyStr lead.accident_location then ["Accident location not provided"] else []) ++
    (if pyFalsyStr lead.injury_description then ["Injury description not provided"] else []) ++
    (if pyFalsyStr lead.medical_treatment then ["Medical treatment details not provided"] else []) ++
    (if pyFalsyStr lead.liability_notes then ["Liability notes not provided"] else [])
  let questions :=
    (if !medical_met then
       ["What medical treatment have you received so far?",
        "Have you seen an orthopedic specialist or had any imaging (X-ray, MRI)?"]
     else []) ++
    (if !liability_met then
       ["How did the accident occur? Who was at fault?",
        "Was a police report filed? Were any citations issued?"]
     else []) ++
    (if !insurance_met then
       ["Do you know the at-fault driver\x27s insurance company?"] else []) ++
    (if lead.accident_date.isNone then ["When did the accident occur?"] else [])
  (strengths, concerns, missing_info, questions)

/-! ## Case value estimate (LeadQualifier._estimate_case_value) -/

/-- LeadQualifier._estimate_case_value, with exact rationals standing in
for Python floats (the 1.2 multiplier is 6/5). -/
def LeadQualifier.estimate_case_value
    (serious medical_met liability_met is_tri_county : Bool) : Option Rat :=
  if !(medical_met && liability_met) then none
  else
    let base_value : Rat := if serious then 75000 else 25000
    some (if is_tri_county then base_value * (6 / 5) else base_value)

/-! ## Qualification notes (LeadQualifier._generate_qualification_notes) -/

/-- Bulleted lines with a fixed item marker, one per list element. -/
def bulletLines (marker : String) (xs : List String) : String :=
  xs.foldl (fun acc x => acc ++ marker ++ x ++ "\n") ""

/-- Numbered question lines starting at the given index
(Python enumerate(questions, 1)). -/
def numberedLines : Nat → List String → String
  | _, [] => ""
  | i, q :: rest => "  " ++ toString i ++ ". " ++ q ++ "\n" ++ numberedLines (i + 1) rest

/-- LeadQualifier._generate_qualification_notes.  The timestamp string is
the strftime rendering of datetime.now, passed in opaquely. -/
def LeadQualifier.generate_qualification_notes (timestamp : String)
    (tier : QualificationTier) (score : Int)
    (strengths concerns missing_info questions : List String)
    (safety_flags : List SafetyFlag) (ai_analysis : Option String) : String :=
  match tier with
  | .TIER_1_AUTO_ACCEPT =>
    "Auto-qualified " ++ timestamp ++ ".\n\n" ++
    "Score: " ++ toString score ++ " points\n\n" ++
    "CRITERIA MET:\n" ++
    bulletLines "  - " strengths ++
    (match ai_analysis with
     | some a => "\nAI ASSESSMENT:\n" ++ a ++ "\n"
     | none => "") ++
    "\nRecommended intake call within 24 hours."
  | .TIER_2_REVIEW =>
    "Flagged for review " ++ timestamp ++ ".\n\n" ++
    "Score: " ++ toString score ++ " points\n\n" ++
    (if strengths.isEmpty then ""
     else "STRENGTHS:\n" ++ bulletLines "  + " strengths ++ "\n") ++
    (if concerns.isEmpty then ""
     else "CONCERNS:\n" ++ bulletLines "  - " concerns ++ "\n") ++
    (if safety_flags.isEmpty then ""
     else "SAFETY FLAGS:\n" ++
          bulletLines "  ! " (safety_flags.map SafetyFlag.description) ++ "\n") ++
    (if missing_info.isEmpty then ""
     else "MISSING INFORMATION:\n" ++ bulletLines "  ? " missing_info ++ "\n") ++
    (if questions.isEmpty then ""
     else "RECOMMENDED QUESTIONS:\n" ++ numberedLines 1 questions ++ "\n") ++
    (match ai_analysis with
     | some a => "AI ASSESSMENT:\n" ++ a ++ "\n"
     | none => "")
  | .TIER_3_AUTO_DECLINE =>
    "Auto-declined " ++ timestamp ++ ".\n\n" ++
    "Score: " ++ toString score ++ " points\n\n" ++
    "REASONS FOR DECLINE:\n" ++
    bulletLines "  - " concerns ++
    bulletLines "  - " (safety_flags.map SafetyFlag.description)

/-! ## Orchestration (LeadQualifier.qualify_lead) -/

/-- LeadQualifier.qualify_lead.  today is the current date as a day
ordinal and nowStr its strftime rendering; hasClaudeClient models
whether self.claude_client is non-None; ai_oracle models the outcome of
the external _get_ai_analysis call (none when the call fails, since the
source returns None on exception). -/
def LeadQualifier.qualify_lead (cfg : QualificationConfig) (lead : Lead)
    (today : Nat) (nowStr : String) (hasClaudeClient : Bool)
    (ai_oracle : Option String) : QualificationResult :=
  let geo := LeadQualifier.analyze_geography cfg lead.accident_location
  let county := geo.1
  let is_tri_county := geo.2.1
  let is_in_sc := geo.2.2
  let months_until_sol := LeadQualifier.calculate_sol_remaining cfg lead.accident_date today
  let safety_flags := LeadQualifier.check_safety_rules cfg lead
  let med := LeadQualifier.analyze_medical_treatment cfg lead
  let medical_met := med.1
  let medical_points := med.2.1
  let medical_details := med.2.2
  let liab := LeadQualifier.analyze_liability cfg lead
  let liability_met := liab.1
  let liability_points := liab.2.1
  let liability_details := liab.2.2
  let ins := LeadQualifier.analyze_insurance cfg lead
  let insurance_met := ins.1
  let insurance_points := ins.2
  let sol := LeadQualifier.analyze_sol cfg months_until_sol
  let sol_adequate := sol.1
  let sol_points := sol.2
  let sev := LeadQualifier.analyze_injury_severity cfg lead
  let serious := sev.1
  let serious_points := sev.2.1
  let injury_type := sev.2.2
  let geographic_bonus : Int :=
    if !is_in_sc then 0
    else if is_tri_county then cfg.tri_county_bonus
    else 0
  let total_score :=
    medical_points + liability_points + insurance_points +
    sol_points + serious_points + geographic_bonus
  let tier := LeadQualifier.determine_tier cfg total_score safety_flags is_in_sc sol_adequate
  let lists := LeadQualifier.build_analysis_lists lead medical_met liability_met
    insurance_met sol_adequate serious is_tri_county county
    medical_details liability_details
  let strengths := lists.1
  let concerns := lists.2.1
  let missing_info := lists.2.2.1
  let questions := lists.2.2.2
  let estimated_value := LeadQualifier.estimate_case_value serious medical_met
    liability_met is_tri_county
  let ai_analysis :=
    if hasClaudeClient && !(tier == QualificationTier.TIER_3_AUTO_DECLINE) then
      ai_oracle
    else none
  let notes := LeadQualifier.generate_qualification_notes nowStr tier total_score
    strengths concerns missing_info questions safety_flags ai_analysis
  { tier := tier,
    total_score := total_score,
    medical_treatment_met := medical_met,
    medical_treatment_points := medical_points,
    liability_met := liability_met,
    liability_points := liability_points,
    insurance_identified := insurance_met,
    insurance_points := insurance_points,
    sol_adequate := sol_adequate,
    sol_points := sol_points,
    serious_injury := serious,
    serious_injury_points := serious_points,
    geographic_bonus := geographic_bonus,
    county := county,
    is_tri_county := is_tri_county,
    is_in_sc := is_in_sc,
    months_until_sol := months_until_sol,
    estimated_case_value := estimated_value,
    injury_type := injury_type,
    qualification_notes := notes,
    strengths := strengths,
    concerns := concerns,
    missing_info := missing_info,
    recommended_questions := questions,
    safety_flags := safety_flags,
    ai_analysis := ai_analysis }

/-- qualify_lead_fallback: re-runs qualification with a fresh
LeadQualifier built from a default ClaudeConfig, whose empty API key
makes claude_client None (so no AI call is attempted), then overwrites
ai_analysis with the fixed fallback message. -/
def qualify_lead_fallback (cfg : QualificationConfig) (lead : Lead)
    (today : Nat) (nowStr : String) : QualificationResult :=
  let result := LeadQualifier.qualify_lead cfg lead today nowStr false none
  { result with
    ai_analysis := some "AI analysis unavailable - using keyword-based scoring only" }

/-! ## ChatGPT Tier-1 scorer (src/src/chatgpt_scorer.py) -/

/-- Recommendation enum from src/src/chatgpt_scorer.py. -/
inductive Recommendation where
  | FAST_TRACK
  | CLAUDE_REVIEW
  | DECLINE
  | NEED_INFO
  deriving Repr, DecidableEq

/-- String value of a Recommendation (the enum member values). -/
def Recommendation.value : Recommendation → String
  | .FAST_TRACK => "FAST-TRACK"
  | .CLAUDE_REVIEW => "CLAUDE-REVIEW"
  | .DECLINE => "DECLINE"
  | .NEED_INFO => "NEED-INFO"

/-- ChatGPTScoringResult dataclass. -/
structure ChatGPTScoringResult where
  score : Int
  recommendation : Recommendation
  analysis : String
  red_flags : List String
  confidence : Int
  incident_type_score : Int
  injury_severity_score : Int
  liability_score : Int
  insurance_score : Int
  sol_score : Int
  geographic_score : Int
  raw_response : Option String := none
  deriving Repr, DecidableEq

/-- Component-scores sub-object of the parsed Tier-1 JSON; absent keys
are none (dict.get defaults are applied at the use site). -/
structure GptComponentScores where
  incident_type : Option Int := none
  injury_severity : Option Int := none
  liability : Option Int := none
  insurance : Option Int := none
  sol : Option Int := none
  geographic : Option Int := none
  deriving Repr, DecidableEq

/-- Parsed Tier-1 JSON object (the result of json.loads on the cleaned
response); absent keys are none. -/
structure GptJson where
  score : Option Int := none
  recommendation : Option String := none
  analysis : Option String := none
  red_flags : Option (List String) := none
  confidence : Option Int := none
  component_scores : Option GptComponentScores := none
  missing_information : Option (List String) := none
  deriving Repr, DecidableEq

/-- ChatGPTScorer._determine_recommendation. -/
def ChatGPTScorer.determine_recommendation (th : ScoringThresholds)
    (score : Int) (gpt_recommendation : String)
    (missing_info : List String) : Recommendation :=
  if score ≥ th.fast_track then .FAST_TRACK
  else if score ≥ th.claude_review then .CLAUDE_REVIEW
  else if score ≥ th.need_info && missing_info.length > 0 then .NEED_INFO
  else if gpt_recommendation == "NEED-INFO" && missing_info.length > 0 then .NEED_INFO
  else .DECLINE

/-- ChatGPTScorer._parse_response.  The argument is the outcome of
json.loads on the cleaned raw response: none when it raised
JSONDecodeError, otherwise the parsed object. -/
def ChatGPTScorer.parse_response (th : ScoringThresholds)
    (data : Option GptJson) : ChatGPTScoringResult :=
  match data with
  | none =>
    { score := 0,
      recommendation := .CLAUDE_REVIEW,
      analysis := "Failed to parse scoring response. Escalating to Claude.",
      red_flags := ["Parse error - response was not valid JSON"],
      confidence := 0,
      incident_type_score := 0,
      injury_severity_score := 0,
      liability_score := 0,
      insurance_score := 0,
      sol_score := 0,
      geographic_score := 0 }
  | some d =>
    let components := d.component_scores.getD {}
    let score := d.score.getD 0
    let rec_str := pyUpper (d.recommendation.getD "CLAUDE-REVIEW")
    let missing_info := d.missing_information.getD []
    let recommendation := ChatGPTScorer.determine_recommendation th score rec_str missing_info
    { score := score,
      recommendation := recommendation,
      analysis := d.analysis.getD "No analysis provided",
      red_flags := d.red_flags.getD [],
      confidence := d.confidence.getD 50,
      incident_type_score := components.incident_type.getD 0,
      injury_severity_score := components.injury_severity.getD 0,
      liability_score := components.liability.getD 0,
      insurance_score := components.insurance.getD 0,
      sol_score := components.sol.getD 0,
      geographic_score := components.geographic.getD 0 }

/-- ChatGPTScorer.score_lead.  The api argument models the chat
completion call: error e when the API call raised (e the exception
text), ok (raw, parsed) when it returned raw text whose json.loads
outcome is parsed. -/
def ChatGPTScorer.score_lead (th : ScoringThresholds)
    (api : Except String (String × Option GptJson)) : ChatGPTScoringResult :=
  match api with
  | .error e =>
    { score := 0,
      recommendation := .CLAUDE_REVIEW,
      analysis := "ChatGPT scoring failed: " ++ e ++
        ". Escalating to Claude for manual review.",
      red_flags := ["API Error - scoring failed"],
      confidence := 0,
      incident_type_score := 0,
      injury_severity_score := 0,
      liability_score := 0,
      insurance_score := 0,
      sol_score := 0,
      geographic_score := 0,
      raw_response := none }
  | .ok (raw, parsed) =>
    { ChatGPTScorer.parse_response th parsed with raw_response := some raw }

/-! ## Claude Tier-2 analyzer (src/src/claude_analyzer.py) -/

/-- ClaudeAnalysisResult dataclass. -/
structure ClaudeAnalysisResult where
  deep_analysis : String
  case_comparisons : String
  carrier_strategy : String
  missing_gaps : List String
  recommended_questions : List String
  final_recommendation : String
  confidence : Int
  estimated_value_range : Option String := none
  negotiation_notes : Option String := none
  raw_response : Option String := none
  deriving Repr, DecidableEq

/-- Parsed Tier-2 JSON object; absent keys are none. -/
structure ClaudeJson where
  deep_analysis : Option String := none
  case_comparisons : Option String := none
  carrier_strategy : Option String := none
  missing_gaps : Option (List String) := none
  recommended_questions : Option (List String) := none
  final_recommendation : Option String := none
  confidence : Option Int := none
  estimated_value_range : Option String := none
  negotiation_notes : Option String := none
  deriving Repr, DecidableEq

/-- ClaudeAnalyzer._parse_response.  raw is the raw response text;
data is the json.loads outcome on the cleaned text (none on
JSONDecodeError). -/
def ClaudeAnalyzer.parse_response (raw : String)
    (data : Option ClaudeJson) : ClaudeAnalysisResult :=
  match data with
  | none =>
    { deep_analysis := if raw == "" then "Parse error" else pyTake raw 2000,
      case_comparisons := "Unable to parse structured response",
      carrier_strategy := "Manual review required",
      missing_gaps := ["Response parsing failed"],
      recommended_questions := [],
      final_recommendation := "Need More Info",
      confidence := 0 }
  | some d =>
    { deep_analysis := d.deep_analysis.getD "No analysis provided",
      case_comparisons := d.case_comparisons.getD "No comparisons available",
      carrier_strategy := d.carrier_strategy.getD "Standard approach recommended",
      missing_gaps := d.missing_gaps.getD [],
      recommended_questions := d.recommended_questions.getD [],
      final_recommendation := d.final_recommendation.getD "Need More Info",
      confidence := d.confidence.getD 50,
      estimated_value_range := d.estimated_value_range,
      negotiation_notes := d.negotiation_notes }

/-- ClaudeAnalyzer.analyze_lead.  The api argument models the messages
call: error e when it raised, ok (raw, parsed) when it returned raw
text whose json.loads outcome is parsed. -/
def ClaudeAnalyzer.analyze_lead
    (api : Except String (String × Option ClaudeJson)) : ClaudeAnalysisResult :=
  match api with
  | .error e =>
    { deep_analysis := "Claude analysis failed: " ++ e,
      case_comparisons := "Unable to retrieve case comparisons due to API error.",
      carrier_strategy := "Manual review required.",
      missing_gaps := ["Unable to complete analysis"],
      recommended_questions := [],
      final_recommendation := "Need More Info",
      confidence := 0,
      raw_response := none }
  | .ok (raw, parsed) =>
    { ClaudeAnalyzer.parse_response raw parsed with raw_response := some raw }

/-! ## Two-tier engine (src/src/qualifier.py, TwoTierQualifier) -/

/-- TwoTierResult dataclass. -/
structure TwoTierResult where
  chatgpt_score : Int
  chatgpt_recommendation : String
  chatgpt_analysis : String
  chatgpt_red_flags : List String
  chatgpt_confidence : Int
  claude_triggered : Bool
  claude_analysis : Option String := none
  claude_case_comparisons : Option String := none
  claude_carrier_strategy : Option String := none
  claude_recommendation : Option String := none
  claude_confidence : Option Int := none
  final_decision : String := ""
  final_confidence : Int := 0
  deriving Repr, DecidableEq

/-- TwoTierQualifier.qualify_lead.  gpt_result is the Tier-1 scoring
outcome; claude_result models what ClaudeAnalyzer.analyze_lead would
return, consulted only on the CLAUDE-REVIEW branch exactly as the
source only performs the Tier-2 call there. -/
def TwoTierQualifier.qualify_lead (gpt_result : ChatGPTScoringResult)
    (claude_result : ClaudeAnalysisResult) : TwoTierResult :=
  let result : TwoTierResult :=
    { chatgpt_score := gpt_result.score,
      chatgpt_recommendation := gpt_result.recommendation.value,
      chatgpt_analysis := gpt_result.analysis,
      chatgpt_red_flags := gpt_result.red_flags,
      chatgpt_confidence := gpt_result.confidence,
      claude_triggered := false }
  match gpt_result.recommendation with
  | .FAST_TRACK =>
    { result with
      final_decision := "Accept",
      final_confidence := gpt_result.confidence }
  | .CLAUDE_REVIEW =>
    { result with
      claude_triggered := true,
      claude_analysis := some claude_result.deep_analysis,
      claude_case_comparisons := some claude_result.case_comparisons,
      claude_carrier_strategy := some claude_result.carrier_strategy,
      claude_recommendation := some claude_result.final_recommendation,
      claude_confidence := some claude_result.confidence,
      final_decision := claude_result.final_recommendation,
      final_confidence := claude_result.confidence }
  | .NEED_INFO =>
    { result with
      final_decision := "Need More Info",
      final_confidence := gpt_result.confidence }
  | .DECLINE =>
    { result with
      final_decision := "Decline",
      final_confidence := gpt_result.confidence }

/-- TwoTierQualifier.get_status_for_decision. -/
def TwoTierQualifier.get_status_for_decision (decision : String) : String :=
  if decision == "Accept" then "Accepted"
  else if decision == "Decline" then "Declined"
  else if decision == "Need More Info" then "Need More Info"
  else "In Review"

/-! ## Spec-side comparison definitions -/

/-- Tier rules exactly as claim C1 states them: rule (3) fires on ANY
safety flag present (no severity restriction). -/
def tierSpecAsStated (cfg : QualificationConfig) (score : Int)
    (safety_flags : List SafetyFlag) (is_in_sc sol_adequate : Bool) :
    QualificationTier :=
  if !is_in_sc then .TIER_3_AUTO_DECLINE
  else if !sol_adequate then .TIER_3_AUTO_DECLINE
  else if !safety_flags.isEmpty && score ≥ cfg.tier1_threshold then .TIER_2_REVIEW
  else if score ≥ cfg.tier1_threshold then .TIER_1_AUTO_ACCEPT
  else if score ≥ cfg.tier2_threshold then .TIER_2_REVIEW
  else .TIER_3_AUTO_DECLINE

/-- Tier rules as amended: rule (3) fires only on a safety flag whose
severity is "block" or "review". -/
def tierSpecAmended (cfg : QualificationConfig) (score : Int)
    (safety_flags : List SafetyFlag) (is_in_sc sol_adequate : Bool) :
    QualificationTier :=
  if !is_in_sc then .TIER_3_AUTO_DECLINE
  else if !sol_adequate then .TIER_3_AUTO_DECLINE
  else if safety_flags.any (fun f => f.severity == "block" || f.severity == "review")
      && score ≥ cfg.tier1_threshold then .TIER_2_REVIEW
  else if score ≥ cfg.tier1_threshold then .TIER_1_AUTO_ACCEPT
  else if score ≥ cfg.tier2_threshold then .TIER_2_REVIEW
  else .TIER_3_AUTO_DECLINE

/-- SOL remaining-months algorithm exactly as claim C5 words it: null
when the incident date is absent; else expiration is the incident date
plus sol_years fixed 365-day years; 0 when the current time is at or
past expiration; otherwise the calendar month-field difference clamped
at 0. -/
def sol_remaining_spec (cfg : QualificationConfig)
    (incident_date : Option Nat) (now : Nat) : Option Int :=
  match incident_date with
  | none => none
  | some d =>
    let expiration := d + cfg.sol_years * 365
    if now ≥ expiration then some 0
    else
      some (max 0
        (((yearOfOrdinal expiration : Int) - (yearOfOrdinal now : Int)) * 12 +
         ((monthOfOrdinal expiration : Int) - (monthOfOrdinal now : Int))))

/-- Tier-1 threshold override exactly as claim C7 words it. -/
def recommendation_spec (th : ScoringThresholds) (score : Int)
    (provider_label : String) (missing_info : List String) : Recommendation :=
  if score ≥ th.fast_track then .FAST_TRACK
  else if score ≥ th.claude_review then .CLAUDE_REVIEW
  else if score ≥ th.need_info ∧ missing_info ≠ [] then .NEED_INFO
  else if provider_label = "NEED-INFO" ∧ missing_info ≠ [] then .NEED_INFO
  else .DECLINE

/-- Favorability rank of a tier: higher is closer to auto-accept,
TIER_3_AUTO_DECLINE is strictest. -/
def tierRank : QualificationTier → Nat
  | .TIER_3_AUTO_DECLINE => 0
  | .TIER_2_REVIEW => 1
  | .TIER_1_AUTO_ACCEPT => 2

/-! ## Concrete inputs used by witnesses and counterexamples.
Day ordinals computed with Python datetime: 739901 = 2026-10-12,
739841 = 2026-08-13, 739418 = 2025-06-16, 739113 = 2024-08-15. -/

/-- Safety flag with severity "info": constructible input on which the
literal wording of claim C1 diverges from the code. -/
def infoFlag : SafetyFlag :=
  { flag_type := "note", description := "informational only", severity := "info" }

/-- Configuration exercising the disagreeing alias tables of the
geography resolver: richland is preferred but not accepted. -/
def cfgGeo : QualificationConfig :=
  { preferred_counties := ["richland"], accepted_counties := [] }

/-- Tri-county configuration with the usual county lists. -/
def cfgTri : QualificationConfig :=
  { preferred_counties := ["charleston", "berkeley", "dorchester"],
    accepted_counties := ["charleston", "berkeley", "dorchester", "richland"] }

/-- Lead whose statute of limitations has about 20 calendar months
remaining on 2026-10-12 (accident 2025-06-16, 3-year SOL). -/
def leadSolA : Lead :=
  { record_id := "recA", name := "Test Lead A", accident_date := some 739418 }

/-- The same lead with only the accident date changed, leaving about 10
months remaining (accident 2024-08-15): SOL flips from adequate to
inadequate while every other component is untouched. -/
def leadSolB : Lead :=
  { leadSolA with accident_date := some 739113 }

/-- Strong Charleston lead: clear liability, ER treatment with
follow-up, identified carrier, fracture injury, recent accident. -/
def leadStrong : Lead :=
  { record_id := "recS", name := "Jane Roe",
    accident_date := some 739841,
    accident_location := some "Charleston, SC",
    injury_description := some "broken arm",
    medical_treatment := some "ER visit and physical therapy",
    liability_notes := some "rear-end collision, citation issued",
    insurance_carrier := some "Geico" }

/-- Lead with no usable information: out of jurisdiction, so it is
auto-declined. -/
def leadEmpty : Lead :=
  { record_id := "recE", name := "John Doe" }

/-! ## Helper lemmas -/

theorem filter_not_isEmpty_eq_any (p : SafetyFlag → Bool) (l : List SafetyFlag) :
    (!(l.filter p).isEmpty) = l.any p := by
  induction l with
  | nil => rfl
  | cons a t ih =>
    by_cases h : p a
    · simp [List.filter_cons, h]
    · simp [List.filter_cons, h, ih]

theorem geo_bonus_ite (a b : Bool) (x : Int) :
    (if !a then 0 else if b then x else 0) = (if a && b then x else 0) := by
  cases a <;> cases b <;> simp

theorem analyze_medical_points_ite (cfg : QualificationConfig) (lead : Lead) :
    (LeadQualifier.analyze_medical_treatment cfg lead).2.1 =
      (if (LeadQualifier.analyze_medical_treatment cfg lead).1 then
        cfg.medical_treatment_points else 0) := rfl

theorem proj_ite_triple (c : Prop) [Decidable c] (t e : Bool × Int × String)
    (pts : Int) (ht : t.2.1 = if t.1 then pts else 0)
    (he : e.2.1 = if e.1 then pts else 0) :
    (if c then t else e).2.1 = (if (if c then t else e).1 then pts else 0) := by
  by_cases h : c <;> simp [h, ht, he]

theorem proj_ite_pair (c : Prop) [Decidable c] (t e : Bool × Int)
    (pts : Int) (ht : t.2 = if t.1 then pts else 0)
    (he : e.2 = if e.1 then pts else 0) :
    (if c then t else e).2 = (if (if c then t else e).1 then pts else 0) := by
  by_cases h : c <;> simp [h, ht, he]

theorem analyze_liability_points_ite (cfg : QualificationConfig) (lead : Lead) :
    (LeadQualifier.analyze_liability cfg lead).2.1 =
      (if (LeadQualifier.analyze_liability cfg lead).1 then
        cfg.clear_liability_points else 0) := by
  unfold LeadQualifier.analyze_liability
  exact proj_ite_triple _ _ _ _ rfl rfl

theorem analyze_insurance_points_ite (cfg : QualificationConfig) (lead : Lead) :
    (LeadQualifier.analyze_insurance cfg lead).2 =
      (if (LeadQualifier.analyze_insurance cfg lead).1 then
        cfg.identified_insurance_points else 0) := by
  unfold LeadQualifier.analyze_insurance
  exact proj_ite_pair _ _ _ _ rfl (proj_ite_pair _ _ _ _ rfl rfl)

theorem analyze_severity_points_ite (cfg : QualificationConfig) (lead : Lead) :
    (LeadQualifier.analyze_injury_severity cfg lead).2.1 =
      (if (LeadQualifier.analyze_injury_severity cfg lead).1 then
        cfg.serious_injury_points else 0) := rfl

theorem analyze_sol_points_ite (cfg : QualificationConfig) (mo : Option Int) :
    (LeadQualifier.analyze_sol cfg mo).2 =
      (if (LeadQualifier.analyze_sol cfg mo).1 &&
          (match mo with
           | some m => decide (24 < m)
           | none => false) then
        cfg.sol_buffer_points else 0) := by
  cases mo with
  | none => rfl
  | some m =>
    unfold LeadQualifier.analyze_sol
    by_cases h1 : m < cfg.min_sol_months_remaining
    · simp [h1]
    · by_cases h2 : m > 24
      · simp [h1, h2]
      · simp [h1, h2]

attribute [ext] QualificationResult

set_option maxRecDepth 100000

/-- C1 counterexample: at score 11 (the default accept threshold) with a
single safety flag of severity "info", the code auto-accepts, while the
claim, which lets ANY safety flag trigger rule (3), demands review: the
code only counts flags of severity "block" or "review". -/
theorem determine_tier_info_flag_diverges :
    LeadQualifier.determine_tier {} 11 [infoFlag] true true =
      QualificationTier.TIER_1_AUTO_ACCEPT ∧
    tierSpecAsStated {} 11 [infoFlag] true true =
      QualificationTier.TIER_2_REVIEW ∧
    LeadQualifier.determine_tier {} 11 [infoFlag] true true ≠
      tierSpecAsStated {} 11 [infoFlag] true true := by
  decide

/-- C1 (amended): the tier decision follows the ordered rules with rule
(3) amended to read "any safety flag WITH SEVERITY block OR review
present AND score at or above the accept threshold returns
TIER_2_REVIEW"; the remaining rules are as the claim states them. -/
theorem determine_tier_amended_rules (cfg : QualificationConfig)
    (score : Int) (safety_flags : List SafetyFlag)
    (is_in_sc sol_adequate : Bool) :
    LeadQualifier.determine_tier cfg score safety_flags is_in_sc sol_adequate =
      tierSpecAmended cfg score safety_flags is_in_sc sol_adequate := by
  simp only [LeadQualifier.determine_tier, tierSpecAmended,
    filter_not_isEmpty_eq_any]

/-- C2 counterexample: two leads identical except for the accident date
have SOL adequacy flipped (20 vs 10 months remaining against the default
18-month minimum) yet the same total_score, because the SOL component is
worth 0 points whenever at most 24 months remain; so flipping the SOL
met/unmet state does not change total_score by the configured
sol_buffer_points (which is 1, not 0). -/
theorem total_score_sol_flip_unchanged :
    let rA := LeadQualifier.qualify_lead {} leadSolA 739901
      "2026-10-12 09:00:00" false none
    let rB := LeadQualifier.qualify_lead {} leadSolB 739901
      "2026-10-12 09:00:00" false none
    leadSolB = { leadSolA with accident_date := some 739113 } ∧
    rA.months_until_sol = some 20 ∧
    rB.months_until_sol = some 10 ∧
    rA.sol_adequate = true ∧
    rB.sol_adequate = false ∧
    rA.medical_treatment_met = rB.medical_treatment_met ∧
    rA.liability_met = rB.liability_met ∧
    rA.insurance_identified = rB.insurance_identified ∧
    rA.serious_injury = rB.serious_injury ∧
    rA.is_tri_county = rB.is_tri_county ∧
    rA.is_in_sc = rB.is_in_sc ∧
    rA.total_score = rB.total_score ∧
    ({} : QualificationConfig).sol_buffer_points = 1 := by
  decide

/-- C2 (amended): total_score is exactly the sum of the six component
point values; the medical, liability, insurance and serious-injury
components each contribute exactly their configured points when met and
0 when unmet (so flipping one of those flips total_score by exactly that
value); but the SOL component contributes its buffer points only when
adequate with strictly more than 24 months remaining, and the geographic
bonus applies only when the lead is both in jurisdiction and
tri-county. -/
theorem qualify_lead_score_decomposition (cfg : QualificationConfig)
    (lead : Lead) (today : Nat) (nowStr : String) (hc : Bool)
    (o : Option String) :
    let r := LeadQualifier.qualify_lead cfg lead today nowStr hc o
    r.total_score =
      r.medical_treatment_points + r.liability_points + r.insurance_points +
        r.sol_points + r.serious_injury_points + r.geographic_bonus ∧
    r.medical_treatment_points =
      (if r.medical_treatment_met then cfg.medical_treatment_points else 0) ∧
    r.liability_points =
      (if r.liability_met then cfg.clear_liability_points else 0) ∧
    r.insurance_points =
      (if r.insurance_identified then cfg.identified_insurance_points else 0) ∧
    r.serious_injury_points =
      (if r.serious_injury then cfg.serious_injury_points else 0) ∧
    r.sol_points =
      (if r.sol_adequate &&
          (match r.months_until_sol with
           | some m => decide (24 < m)
           | none => false) then cfg.sol_buffer_points else 0) ∧
    r.geographic_bonus =
      (if r.is_in_sc && r.is_tri_county then cfg.tri_county_bonus else 0) :=
  ⟨rfl, rfl, analyze_liability_points_ite cfg lead,
   analyze_insurance_points_ite cfg lead, rfl,
   analyze_sol_points_ite cfg
     (LeadQualifier.calculate_sol_remaining cfg lead.accident_date today),
   geo_bonus_ite (LeadQualifier.analyze_geography cfg lead.accident_location).2.2
     (LeadQualifier.analyze_geography cfg lead.accident_location).2.1
     cfg.tri_county_bonus⟩

/-- C3: in the two-tier engine, claude_triggered is true exactly when
the Tier-1 recommendation is CLAUDE-REVIEW; on FAST-TRACK, DECLINE and
NEED-INFO the Tier-2 fields stay null and final_decision /
final_confidence come from Tier-1 ("Accept" / "Decline" /
"Need More Info" with the Tier-1 confidence); on CLAUDE-REVIEW the final
decision and confidence are the Tier-2 recommendation and confidence. -/
theorem two_tier_routing (g : ChatGPTScoringResult)
    (c : ClaudeAnalysisResult) :
    let r := TwoTierQualifier.qualify_lead g c
    r.claude_triggered = (g.recommendation == Recommendation.CLAUDE_REVIEW) ∧
    r.final_decision =
      (match g.recommendation with
       | .FAST_TRACK => "Accept"
       | .CLAUDE_REVIEW => c.final_recommendation
       | .NEED_INFO => "Need More Info"
       | .DECLINE => "Decline") ∧
    r.final_confidence =
      (match g.recommendation with
       | .CLAUDE_REVIEW => c.confidence
       | _ => g.confidence) ∧
    r.claude_analysis =
      (match g.recommendation with
       | .CLAUDE_REVIEW => some c.deep_analysis
       | _ => none) ∧
    r.claude_case_comparisons =
      (match g.recommendation with
       | .CLAUDE_REVIEW => some c.case_comparisons
       | _ => none) ∧
    r.claude_carrier_strategy =
      (match g.recommendation with
       | .CLAUDE_REVIEW => some c.carrier_strategy
       | _ => none) ∧
    r.claude_recommendation =
      (match g.recommendation with
       | .CLAUDE_REVIEW => some c.final_recommendation
       | _ => none) ∧
    r.claude_confidence =
      (match g.recommendation with
       | .CLAUDE_REVIEW => some c.confidence
       | _ => none) := by
  cases hr : g.recommendation <;>
    simp [TwoTierQualifier.qualify_lead, hr]

/-- C4: the tier decision is monotone in the score: with the safety
flags, jurisdiction flag and SOL flag held fixed, a higher score never
produces a stricter tier, under the favorability order auto-accept,
then review, then auto-decline. -/
theorem determine_tier_monotone_in_score (cfg : QualificationConfig)
    (flags : List SafetyFlag) (is_in_sc sol_adequate : Bool)
    (s1 s2 : Int) (h : s1 ≤ s2) :
    tierRank (LeadQualifier.determine_tier cfg s1 flags is_in_sc sol_adequate) ≤
      tierRank (LeadQualifier.determine_tier cfg s2 flags is_in_sc sol_adequate) := by
  unfold LeadQualifier.determine_tier
  cases is_in_sc with
  | false => simp [tierRank]
  | true =>
    cases sol_adequate with
    | false => simp [tierRank]
    | true =>
      simp only [Bool.not_true, Bool.false_eq_true, if_false]
      by_cases e1 : s1 ≥ cfg.tier1_threshold
      · have e2 : s2 ≥ cfg.tier1_threshold := le_trans e1 h
        cases hf : (flags.filter
            (fun f => f.severity == "block" || f.severity == "review")).isEmpty <;>
          simp [e1, e2, hf, tierRank]
      · by_cases e2 : s2 ≥ cfg.tier1_threshold
        · by_cases e3 : s1 ≥ cfg.tier2_threshold <;>
            cases hf : (flags.filter
              (fun f => f.severity == "block" || f.severity == "review")).isEmpty <;>
            simp [e1, e2, e3, hf, tierRank]
        · by_cases e3 : s1 ≥ cfg.tier2_threshold
          · have e4 : s2 ≥ cfg.tier2_threshold := le_trans e3 h
            simp [e1, e2, e3, e4, tierRank]
          · simp [e1, e2, e3, tierRank]

/-- C4 witness: the monotonicity theorem applied at scores 5 and 12
with the default configuration, no flags, in jurisdiction and adequate
SOL. -/
theorem determine_tier_monotone_in_score_witness :
    (5 : Int) ≤ 12 ∧
    tierRank (LeadQualifier.determine_tier {} 5 [] true true) ≤
      tierRank (LeadQualifier.determine_tier {} 12 [] true true) :=
  ⟨by decide,
   determine_tier_monotone_in_score {} [] true true 5 12 (by decide)⟩

/-- C5: the SOL calculator agrees everywhere with the algorithm the
claim describes (null without an incident date; expiration at the
incident date plus sol_years fixed 365-day years; 0 when the current
time is at or past expiration; otherwise the calendar month-field
difference clamped at 0), and with an incident date present its result
is always a non-negative number of months. -/
theorem calculate_sol_remaining_spec_eq (cfg : QualificationConfig)
    (d : Option Nat) (today : Nat) :
    LeadQualifier.calculate_sol_remaining cfg d today =
      sol_remaining_spec cfg d today ∧
    (∀ a : Nat, ∃ v : Int,
      LeadQualifier.calculate_sol_remaining cfg (some a) today = some v ∧
        0 ≤ v) := by
  constructor
  · cases d with
    | none => rfl
    | some a => rfl
  · intro a
    unfold LeadQualifier.calculate_sol_remaining
    by_cases hc : a + cfg.sol_years * 365 ≤ today
    · exact ⟨0, by simp [hc], le_refl 0⟩
    · exact ⟨max 0
        (((yearOfOrdinal (a + cfg.sol_years * 365) : Int) -
            (yearOfOrdinal today : Int)) * 12 +
         ((monthOfOrdinal (a + cfg.sol_years * 365) : Int) -
            (monthOfOrdinal today : Int))),
        by simp [hc], le_max_left _ _⟩

/-- C6: the preferred-region (tri-county) flag is true precisely when a
county was resolved and lies in the configured preferred-counties list,
independent of the jurisdiction flag; concretely, with richland
preferred but not accepted, the location "Columbia" resolves to county
richland with is_preferred_region true and is_in_jurisdiction false. -/
theorem analyze_geography_preferred_independent (cfg : QualificationConfig)
    (loc : Option String) :
    (LeadQualifier.analyze_geography cfg loc).2.1 =
      (match (LeadQualifier.analyze_geography cfg loc).1 with
       | some c => cfg.preferred_counties.contains c
       | none => false) ∧
    LeadQualifier.analyze_geography cfgGeo (some "Columbia") =
      (some "richland", true, false) := by
  constructor
  · cases loc with
    | none => rfl
    | some s =>
      cases hs : (s == "") <;> simp [LeadQualifier.analyze_geography, hs]
  · decide

/-- C7: the Tier-1 threshold override maps (score, provider label,
missing-information list) exactly as the claim orders it: fast-track
threshold first, then review threshold, then need-info threshold with a
non-empty gap list, then a provider NEED-INFO label with a non-empty gap
list, else DECLINE. -/
theorem determine_recommendation_threshold_spec (th : ScoringThresholds)
    (score : Int) (label : String) (missing : List String) :
    ChatGPTScorer.determine_recommendation th score label missing =
      recommendation_spec th score label missing := by
  unfold ChatGPTScorer.determine_recommendation recommendation_spec
  by_cases h1 : score ≥ th.fast_track
  · simp [h1]
  · by_cases h2 : score ≥ th.claude_review
    · simp [h1, h2]
    · by_cases h3 : score ≥ th.need_info
      · cases hm : missing with
        | nil => simp [h1, h2, h3, hm]
        | cons x xs =>
          by_cases h4 : label = "NEED-INFO" <;> simp [h1, h2, h3, h4, hm]
      · cases hm : missing with
        | nil => simp [h1, h2, h3, hm]
        | cons x xs =>
          by_cases h4 : label = "NEED-INFO" <;> simp [h1, h2, h3, h4, hm]

/-- C8: AI-provider failures degrade to the documented conservative
defaults instead of raising: a Tier-1 API error or JSON parse failure
yields score 0, recommendation CLAUDE-REVIEW and confidence 0, and a
Tier-2 API error or JSON parse failure yields final recommendation
"Need More Info" with confidence 0; both functions are total, so a
result is always returned. -/
theorem ai_failures_degrade_conservatively (th : ScoringThresholds)
    (e : String) (raw : String) :
    (ChatGPTScorer.score_lead th (Except.error e)).score = 0 ∧
    (ChatGPTScorer.score_lead th (Except.error e)).recommendation =
      Recommendation.CLAUDE_REVIEW ∧
    (ChatGPTScorer.score_lead th (Except.error e)).confidence = 0 ∧
    (ChatGPTScorer.score_lead th (Except.ok (raw, none))).score = 0 ∧
    (ChatGPTScorer.score_lead th (Except.ok (raw, none))).recommendation =
      Recommendation.CLAUDE_REVIEW ∧
    (ChatGPTScorer.score_lead th (Except.ok (raw, none))).confidence = 0 ∧
    (ClaudeAnalyzer.analyze_lead (Except.error e)).final_recommendation =
      "Need More Info" ∧
    (ClaudeAnalyzer.analyze_lead (Except.error e)).confidence = 0 ∧
    (ClaudeAnalyzer.analyze_lead (Except.ok (raw, none))).final_recommendation =
      "Need More Info" ∧
    (ClaudeAnalyzer.analyze_lead (Except.ok (raw, none))).confidence = 0 :=
  ⟨rfl, rfl, rfl, rfl, rfl, rfl, rfl, rfl, rfl, rfl⟩

/-- C9 counterexample: for a concrete strong lead at a fixed current
time, the normal run (with an AI commentary) and the AI-disabled
fallback agree on total_score and tier, but differ in
qualification_notes as well as in ai_analysis — so ai_analysis is not
the ONLY field that may differ, contrary to the claim. -/
theorem qualify_lead_notes_differ_with_ai :
    let rN := LeadQualifier.qualify_lead cfgTri leadStrong 739901
      "2026-10-12 09:00:00" true (some "Solid case with clear liability.")
    let rF := qualify_lead_fallback cfgTri leadStrong 739901
      "2026-10-12 09:00:00"
    rN.total_score = rF.total_score ∧
    rN.tier = rF.tier ∧
    rN.medical_treatment_met = rF.medical_treatment_met ∧
    rN.liability_met = rF.liability_met ∧
    rN.insurance_identified = rF.insurance_identified ∧
    rN.sol_adequate = rF.sol_adequate ∧
    rN.serious_injury = rF.serious_injury ∧
    rN.is_tri_county = rF.is_tri_county ∧
    rN.is_in_sc = rF.is_in_sc ∧
    rN.ai_analysis ≠ rF.ai_analysis ∧
    rN.qualification_notes ≠ rF.qualification_notes := by
  decide

/-- C9 (amended): at a fixed current time the whole qualification
result except the narrative ai_analysis field and the
qualification_notes text derived from it is identical across any two
runs of the rule-based engine on the same lead, whatever the
AI-commentary availability or outcome, and identical to the AI-disabled
fallback run: every other field (the score and tier, every component
met/points outcome, geography, SOL months, estimated value, injury
type, the analysis lists and the safety flags) agrees. -/
theorem qualify_lead_deterministic_core (cfg : QualificationConfig)
    (lead : Lead) (today : Nat) (nowStr : String) (hc1 hc2 : Bool)
    (o1 o2 : Option String) :
    let r1 := LeadQualifier.qualify_lead cfg lead today nowStr hc1 o1
    let r2 := LeadQualifier.qualify_lead cfg lead today nowStr hc2 o2
    let rf := qualify_lead_fallback cfg lead today nowStr
    (r1.tier = r2.tier ∧
     r1.total_score = r2.total_score ∧
     r1.medical_treatment_met = r2.medical_treatment_met ∧
     r1.medical_treatment_points = r2.medical_treatment_points ∧
     r1.liability_met = r2.liability_met ∧
     r1.liability_points = r2.liability_points ∧
     r1.insurance_identified = r2.insurance_identified ∧
     r1.insurance_points = r2.insurance_points ∧
     r1.sol_adequate = r2.sol_adequate ∧
     r1.sol_points = r2.sol_points ∧
     r1.serious_injury = r2.serious_injury ∧
     r1.serious_injury_points = r2.serious_injury_points ∧
     r1.geographic_bonus = r2.geographic_bonus ∧
     r1.county = r2.county ∧
     r1.is_tri_county = r2.is_tri_county ∧
     r1.is_in_sc = r2.is_in_sc ∧
     r1.months_until_sol = r2.months_until_sol ∧
     r1.estimated_case_value = r2.estimated_case_value ∧
     r1.injury_type = r2.injury_type ∧
     r1.strengths = r2.strengths ∧
     r1.concerns = r2.concerns ∧
     r1.missing_info = r2.missing_info ∧
     r1.recommended_questions = r2.recommended_questions ∧
     r1.safety_flags = r2.safety_flags) ∧
    (r1.tier = rf.tier ∧
     r1.total_score = rf.total_score ∧
     r1.medical_treatment_met = rf.medical_treatment_met ∧
     r1.medical_treatment_points = rf.medical_treatment_points ∧
     r1.liability_met = rf.liability_met ∧
     r1.liability_points = rf.liability_points ∧
     r1.insurance_identified = rf.insurance_identified ∧
     r1.insurance_points = rf.insurance_points ∧
     r1.sol_adequate = rf.sol_adequate ∧
     r1.sol_points = rf.sol_points ∧
     r1.serious_injury = rf.serious_injury ∧
     r1.serious_injury_points = rf.serious_injury_points ∧
     r1.geographic_bonus = rf.geographic_bonus ∧
     r1.county = rf.county ∧
     r1.is_tri_county = rf.is_tri_county ∧
     r1.is_in_sc = rf.is_in_sc ∧
     r1.months_until_sol = rf.months_until_sol ∧
     r1.estimated_case_value = rf.estimated_case_value ∧
     r1.injury_type = rf.injury_type ∧
     r1.strengths = rf.strengths ∧
     r1.concerns = rf.concerns ∧
     r1.missing_info = rf.missing_info ∧
     r1.recommended_questions = rf.recommended_questions ∧
     r1.safety_flags = rf.safety_flags) :=
  ⟨⟨rfl, rfl, rfl, rfl, rfl, rfl, rfl, rfl, rfl, rfl, rfl, rfl, rfl, rfl, rfl, rfl, rfl, rfl, rfl, rfl, rfl, rfl, rfl, rfl⟩,
   ⟨rfl, rfl, rfl, rfl, rfl, rfl, rfl, rfl, rfl, rfl, rfl, rfl, rfl, rfl, rfl, rfl, rfl, rfl, rfl, rfl, rfl, rfl, rfl, rfl⟩⟩

/-- C10: whenever the rule-based qualification result is
TIER_3_AUTO_DECLINE, the ai_analysis field is null and the AI oracle is
never consulted: the whole result coincides with the run in which no
commentary is available. -/
theorem tier3_skips_ai_analysis (cfg : QualificationConfig) (lead : Lead)
    (today : Nat) (nowStr : String) (hc : Bool) (o : Option String)
    (h : (LeadQualifier.qualify_lead cfg lead today nowStr hc o).tier =
      QualificationTier.TIER_3_AUTO_DECLINE) :
    (LeadQualifier.qualify_lead cfg lead today nowStr hc o).ai_analysis = none ∧
    LeadQualifier.qualify_lead cfg lead today nowStr hc o =
      LeadQualifier.qualify_lead cfg lead today nowStr hc none := by
  have hai : (LeadQualifier.qualify_lead cfg lead today nowStr hc o).ai_analysis =
      (if hc && !((LeadQualifier.qualify_lead cfg lead today nowStr hc o).tier ==
          QualificationTier.TIER_3_AUTO_DECLINE) then o else none) := rfl
  have hai2 : (LeadQualifier.qualify_lead cfg lead today nowStr hc none).ai_analysis =
      (if hc && !((LeadQualifier.qualify_lead cfg lead today nowStr hc none).tier ==
          QualificationTier.TIER_3_AUTO_DECLINE) then none else none) := rfl
  have h2 : (LeadQualifier.qualify_lead cfg lead today nowStr hc o).ai_analysis =
      none := by
    rw [hai, h]; simp
  have h3 : (LeadQualifier.qualify_lead cfg lead today nowStr hc none).ai_analysis =
      none := by
    rw [hai2]; simp
  refine ⟨h2, ?_⟩
  have hnO : (LeadQualifier.qualify_lead cfg lead today nowStr hc o).qualification_notes =
      LeadQualifier.generate_qualification_notes nowStr
        (LeadQualifier.qualify_lead cfg lead today nowStr hc o).tier
        (LeadQualifier.qualify_lead cfg lead today nowStr hc o).total_score
        (LeadQualifier.qualify_lead cfg lead today nowStr hc o).strengths
        (LeadQualifier.qualify_lead cfg lead today nowStr hc o).concerns
        (LeadQualifier.qualify_lead cfg lead today nowStr hc o).missing_info
        (LeadQualifier.qualify_lead cfg lead today nowStr hc o).recommended_questions
        (LeadQualifier.qualify_lead cfg lead today nowStr hc o).safety_flags
        (LeadQualifier.qualify_lead cfg lead today nowStr hc o).ai_analysis := rfl
  have hnN : (LeadQualifier.qualify_lead cfg lead today nowStr hc none).qualification_notes =
      LeadQualifier.generate_qualification_notes nowStr
        (LeadQualifier.qualify_lead cfg lead today nowStr hc none).tier
        (LeadQualifier.qualify_lead cfg lead today nowStr hc none).total_score
        (LeadQualifier.qualify_lead cfg lead today nowStr hc none).strengths
        (LeadQualifier.qualify_lead cfg lead today nowStr hc none).concerns
        (LeadQualifier.qualify_lead cfg lead today nowStr hc none).missing_info
        (LeadQualifier.qualify_lead cfg lead today nowStr hc none).recommended_questions
        (LeadQualifier.qualify_lead cfg lead today nowStr hc none).safety_flags
        (LeadQualifier.qualify_lead cfg lead today nowStr hc none).ai_analysis := rfl
  ext1
  case tier => rfl
  case total_score => rfl
  case medical_treatment_met => rfl
  case medical_treatment_points => rfl
  case liability_met => rfl
  case liability_points => rfl
  case insurance_identified => rfl
  case insurance_points => rfl
  case sol_adequate => rfl
  case sol_points => rfl
  case serious_injury => rfl
  case serious_injury_points => rfl
  case geographic_bonus => rfl
  case county => rfl
  case is_tri_county => rfl
  case is_in_sc => rfl
  case months_until_sol => rfl
  case estimated_case_value => rfl
  case injury_type => rfl
  case qualification_notes => rw [hnO, hnN, h2, h3]; rfl
  case strengths => rfl
  case concerns => rfl
  case missing_info => rfl
  case recommended_questions => rfl
  case safety_flags => rfl
  case ai_analysis => rw [h2, h3]

/-- C10 witness: a lead with no location is out of jurisdiction and
auto-declined; applying the theorem there shows its ai_analysis is null
and the run coincides with the commentary-free run. -/
theorem tier3_skips_ai_analysis_witness :
    (LeadQualifier.qualify_lead {} leadEmpty 739901 "2026-10-12 09:00:00"
        true (some "commentary")).tier = QualificationTier.TIER_3_AUTO_DECLINE ∧
    ((LeadQualifier.qualify_lead {} leadEmpty 739901 "2026-10-12 09:00:00"
        true (some "commentary")).ai_analysis = none ∧
      LeadQualifier.qualify_lead {} leadEmpty 739901 "2026-10-12 09:00:00"
          true (some "commentary") =
        LeadQualifier.qualify_lead {} leadEmpty 739901 "2026-10-12 09:00:00"
          true none) :=
  ⟨by decide,
   tier3_skips_ai_analysis {} leadEmpty 739901 "2026-10-12 09:00:00" true
     (some "commentary") (by decide)⟩
